import Mathlib

/-!
Verification of the inference pipeline of the health-insurance premium
estimator (`app.py`).  The application loads five frozen artifacts (a numeric
scaler, three label encoders and a regression model), collects a seven-field
record from a form, encodes and scales it, assembles a fixed-order feature
vector and calls the model's `predict` on it.

We embed the executable core shallowly: a one-row pandas DataFrame becomes a
record of named cells, the artifact objects become function-carrying
structures, and the `if submitted:` branch of `main` becomes `main_submitted`.
Numeric values are modelled by `ℚ`; errors that Python raises become `Except`.
-/

/-- Decidable equality on `Except`, used to evaluate pipeline runs on
concrete inputs. -/
instance {ε α : Type} [DecidableEq ε] [DecidableEq α] : DecidableEq (Except ε α) := fun x y =>
  match x, y with
  | .ok a, .ok b =>
    if h : a = b then isTrue (by rw [h]) else isFalse (by intro hc; cases hc; exact h rfl)
  | .error a, .error b =>
    if h : a = b then isTrue (by rw [h]) else isFalse (by intro hc; cases hc; exact h rfl)
  | .ok _, .error _ => isFalse (by intro hc; cases hc)
  | .error _, .ok _ => isFalse (by intro hc; cases hc)

namespace HealthApp

/-- A cell of the one-row DataFrame: pandas columns here hold either a numeric
value or a raw categorical string (before encoding). -/
inductive Cell where
  | num : ℚ → Cell
  | str : String → Cell
deriving DecidableEq

/-- One user submission, before transformation (`input_dict`, app.py 222-226).
The form guarantees the numeric ranges; the pipeline itself never checks them. -/
structure Record where
  age : ℚ
  bmi : ℚ
  children : ℚ
  bloodpressure : ℚ
  gender : String
  diabetic : String
  smoker : String
deriving DecidableEq

/-- The one-row DataFrame `input_df`.  The four numeric columns always hold
numbers; the three categorical columns start as strings and are overwritten
with numeric codes by the encoding steps. -/
structure Row where
  age : ℚ
  bmi : ℚ
  children : ℚ
  bloodpressure : ℚ
  gender : Cell
  diabetic : Cell
  smoker : Cell
deriving DecidableEq

/-- Modelled from the spec: a fitted `LabelEncoder` artifact (external sklearn
object, not part of src/).  It exposes its ordered known-class list
(`classes_`) and a numeric code for each known class; per §4.2 step 5 of the
spec the codes may be float-typed, so `code` returns `ℚ`.  Encoding an unknown
label is an error, never a silent default. -/
structure LabelEncoder where
  classes_ : List String
  code : String → ℚ

/-- `LabelEncoder.transform` on a single label: the code when the label is
among the fitted classes, `none` (a raised error) otherwise. -/
def LabelEncoder.transform (e : LabelEncoder) (s : String) : Option ℚ :=
  if s ∈ e.classes_ then some (e.code s) else none

/-- Modelled from the spec: the fitted scaler artifact, an opaque
`transform` on an ordered numeric vector (spec §9: `Scaler.transform
(ordered numeric vector) -> ordered numeric vector`). -/
structure Scaler where
  transform : List ℚ → List ℚ

/-- Modelled from the spec: the opaque trained model (`best_model.pkl`).
`predict` receives the feature matrix (here: its single row) and returns an
indexable sequence of predictions, or raises (modelled by `.error msg`). -/
structure Predictor where
  predict : List Cell → Except String (List ℚ)

/-- Errors raised while loading an artifact file (`joblib.load` raising
`FileNotFoundError` or a deserialization failure). -/
inductive ArtifactLoadError where
  | fileNotFound (name : String)
  | corrupted (name : String)
deriving DecidableEq

/-- The tuple returned by `load_artifacts` (app.py 178). -/
structure Artifacts where
  scaler : Scaler
  le_gender : LabelEncoder
  le_smoker : LabelEncoder
  le_diabetic : LabelEncoder
  model : Predictor

/-- The state of the five artifact files on disk: each `joblib.load` call
either produces the object or raises. -/
structure ArtifactFiles where
  scaler_file : Except ArtifactLoadError Scaler
  gender_file : Except ArtifactLoadError LabelEncoder
  smoker_file : Except ArtifactLoadError LabelEncoder
  diabetic_file : Except ArtifactLoadError LabelEncoder
  model_file : Except ArtifactLoadError Predictor

/-- `load_artifacts` (app.py 171-178): five sequential `joblib.load` calls;
the first failure propagates and no partial tuple is returned. -/
def load_artifacts (fs : ArtifactFiles) : Except ArtifactLoadError Artifacts := do
  let scaler ← fs.scaler_file
  let le_gender ← fs.gender_file
  let le_smoker ← fs.smoker_file
  let le_diabetic ← fs.diabetic_file
  let model ← fs.model_file
  return ⟨scaler, le_gender, le_smoker, le_diabetic, model⟩

/-- Request-scoped errors the submitted branch can raise (uncaught Python
exceptions escaping `main`). -/
inductive PipelineError where
  | unknownCategory (field : String) (val : Cell)
  | scalerShape
  | astypeError (s : String)
  | keyError
deriving DecidableEq

/-- What the user sees: a premium rendered in the result box, or the
`st.error` message from the `except` branch around `model.predict`. -/
inductive Outcome where
  | premium (p : ℚ)
  | predictionError (msg : String)
deriving DecidableEq

/-- Truncation toward zero, the conversion `astype(int)` applies to a
float-valued column. -/
def truncInt (q : ℚ) : ℤ :=
  q.num.tdiv q.den

/-- Building `input_df` from `input_dict` (app.py 222-227): numeric columns
hold the numbers, categorical columns hold the raw strings. -/
def mkInputDf (r : Record) : Row :=
  { age := r.age, bmi := r.bmi, children := r.children,
    bloodpressure := r.bloodpressure, gender := .str r.gender,
    diabetic := .str r.diabetic, smoker := .str r.smoker }

/-- One encoding assignment `input_df[f] = le.transform(input_df[f])`
(app.py 230-232) applied to the current cell of column `field`.  A label not
in the fitted classes raises (sklearn `ValueError`), modelled as
`unknownCategory`; so does a non-string cell. -/
def encodeCell (e : LabelEncoder) (field : String) : Cell → Except PipelineError ℚ
  | .str s =>
    match e.transform s with
    | some q => .ok q
    | none => .error (.unknownCategory field (.str s))
  | .num q => .error (.unknownCategory field (.num q))

/-- The three encoding assignments of app.py 230-232, in source order:
gender, then diabetic, then smoker. -/
def encodePhase (arts : Artifacts) (r : Record) : Except PipelineError Row := do
  let df0 := mkInputDf r
  let g ← encodeCell arts.le_gender "gender" df0.gender
  let df1 := { df0 with gender := Cell.num g }
  let d ← encodeCell arts.le_diabetic "diabetic" df1.diabetic
  let df2 := { df1 with diabetic := Cell.num d }
  let s ← encodeCell arts.le_smoker "smoker" df2.smoker
  return { df2 with smoker := Cell.num s }

/-- `input_df[num_features] = scaler.transform(input_df[num_features])`
(app.py 234-235) with `num_features = ["age", "bmi", "bloodpressure"]`: the
scaler sees exactly those three columns in that order and its output is
written back to them; a shape mismatch raises (pandas `ValueError`). -/
def scaleStep (sc : Scaler) (df : Row) : Except PipelineError Row :=
  match sc.transform [df.age, df.bmi, df.bloodpressure] with
  | [a, b, c] => .ok { df with age := a, bmi := b, bloodpressure := c }
  | _ => .error .scalerShape

/-- `astype(int)` on one cell: truncation toward zero on a numeric cell;
on a non-numeric cell pandas raises. -/
def Cell.astype_int : Cell → Except PipelineError Cell
  | .num q => .ok (.num ((truncInt q : ℤ) : ℚ))
  | .str s => .error (.astypeError s)

/-- The loop `for cat in ["gender", "diabetic", "smoker"]:
input_df[cat] = input_df[cat].astype(int)` (app.py 237-238). -/
def astypeStep (df : Row) : Except PipelineError Row := do
  let g ← df.gender.astype_int
  let df1 := { df with gender := g }
  let d ← df1.diabetic.astype_int
  let df2 := { df1 with diabetic := d }
  let s ← df2.smoker.astype_int
  return { df2 with smoker := s }

/-- The whole preprocessing block of the submitted branch (app.py 222-238):
build the frame, encode the three categorical columns, scale the numeric
subset, cast the categorical columns to integer. -/
def preprocess (arts : Artifacts) (r : Record) : Except PipelineError Row := do
  let df3 ← encodePhase arts r
  let df4 ← scaleStep arts.scaler df3
  astypeStep df4

/-- Column lookup by name, the basis of `input_df[model_cols]`. -/
def Row.col (df : Row) : String → Option Cell
  | "age" => some (.num df.age)
  | "bmi" => some (.num df.bmi)
  | "children" => some (.num df.children)
  | "bloodpressure" => some (.num df.bloodpressure)
  | "gender" => some df.gender
  | "diabetic" => some df.diabetic
  | "smoker" => some df.smoker
  | _ => none

/-- Selecting a list of named columns, in the order given (pandas raises a
`KeyError`, here `none`, when a name is absent). -/
def Row.selectCols (df : Row) : List String → Option (List Cell)
  | [] => some []
  | c :: cs => do
    let v ← df.col c
    let rest ← df.selectCols cs
    return v :: rest

/-- The frozen column order handed to the model (app.py 240). -/
def model_cols : List String :=
  ["age", "gender", "bmi", "bloodpressure", "diabetic", "children", "smoker"]

/-- The numpy `IndexError` message produced by `[0]` on an empty prediction
array; it is caught by the same `except` as a predictor failure. -/
def indexErrorMsg : String :=
  "index 0 is out of bounds for axis 0 with size 0"

/-- `try: prediction = model.predict(final_input)[0] ... except` (app.py
243-264): a raising predictor or an empty prediction sequence lands in the
`st.error` branch; otherwise element 0 is the displayed premium and any
further elements are ignored. -/
def predictStep (m : Predictor) (v : List Cell) : Outcome :=
  match m.predict v with
  | .error e => .predictionError ("Prediction Error: " ++ e)
  | .ok [] => .predictionError ("Prediction Error: " ++ indexErrorMsg)
  | .ok (p :: _) => .premium p

/-- The `if submitted:` branch of `main` (app.py 221-264): preprocessing,
column selection in `model_cols` order, prediction. -/
def main_submitted (arts : Artifacts) (r : Record) : Except PipelineError Outcome := do
  let df ← preprocess arts r
  match df.selectCols model_cols with
  | some final_input => return predictStep arts.model final_input
  | none => .error .keyError

/-! ### Concrete stub artifacts

Fixed stub artifacts used by the spec's example scenario (§8): encoders with
`male → 1` and `No → 0`, an identity scaler, and a stub predictor that accepts
exactly the expected reference vector. -/

/-- Stub gender encoder: classes `["female", "male"]`, so `male → 1`. -/
def stubGenderEncoder : LabelEncoder :=
  { classes_ := ["female", "male"],
    code := fun s => if s = "male" then 1 else 0 }

/-- Stub yes/no encoder used for `smoker` and `diabetic`: classes
`["No", "Yes"]`, so `No → 0`. -/
def stubYesNoEncoder : LabelEncoder :=
  { classes_ := ["No", "Yes"],
    code := fun s => if s = "Yes" then 1 else 0 }

/-- Identity scaler stub. -/
def stubScaler : Scaler :=
  { transform := fun xs => xs }

/-- The reference feature vector of the spec's example scenario, in
`model_cols` order: `[30, 1, 25.0, 120, 0, 0, 0]`. -/
def referenceVec : List Cell :=
  [.num 30, .num 1, .num 25, .num 120, .num 0, .num 0, .num 0]

/-- Stub predictor with a fixed output `9157` for exactly the reference
vector; any other vector is rejected. -/
def stubPredictor : Predictor :=
  { predict := fun v => if v = referenceVec then .ok [9157] else .error "unexpected vector" }

/-- The stub artifact tuple. -/
def stubArtifacts : Artifacts :=
  { scaler := stubScaler, le_gender := stubGenderEncoder,
    le_smoker := stubYesNoEncoder, le_diabetic := stubYesNoEncoder,
    model := stubPredictor }

/-- The example Record of spec §8. -/
def exampleRecord : Record :=
  { age := 30, bmi := 25, children := 0, bloodpressure := 120,
    gender := "male", diabetic := "No", smoker := "No" }

/-- The frame the stub run produces after preprocessing, used as the concrete
instantiation in witnesses. -/
def exampleDf : Row :=
  { age := 30, bmi := 25, children := 0, bloodpressure := 120,
    gender := .num 1, diabetic := .num 0, smoker := .num 0 }

/-- A second record used for witnesses: `female`, `Yes`, `Yes`. -/
def witnessRecord : Record :=
  { age := 40, bmi := 30, children := 2, bloodpressure := 130,
    gender := "female", diabetic := "Yes", smoker := "Yes" }

/-- The artifact-file state with the scaler file missing and everything else
healthy. -/
def missingScalerFiles : ArtifactFiles :=
  { scaler_file := .error (.fileNotFound "scaler.joblib"),
    gender_file := .ok stubGenderEncoder,
    smoker_file := .ok stubYesNoEncoder,
    diabetic_file := .ok stubYesNoEncoder,
    model_file := .ok stubPredictor }

/-- The rational 0.5, built by its constructor so that it reduces in the
kernel. -/
def halfQ : ℚ := ⟨1, 2, by decide, by decide⟩

/-- The rational 1.5, built by its constructor so that it reduces in the
kernel. -/
def threeHalvesQ : ℚ := ⟨3, 2, by decide, by decide⟩

/-- A gender encoder that emits float-typed codes (spec §4.2 step 5 allows
this): `female → 0.5`, `male → 1.5`. -/
def floatGenderEncoder : LabelEncoder :=
  { classes_ := ["female", "male"],
    code := fun s => if s = "male" then threeHalvesQ else halfQ }

/-- A yes/no encoder that emits float-typed codes: `No → 0`, `Yes → 1.5`. -/
def floatYesNoEncoder : LabelEncoder :=
  { classes_ := ["No", "Yes"],
    code := fun s => if s = "Yes" then threeHalvesQ else 0 }

/-- Artifacts whose encoders emit float codes. -/
def floatCodeArtifacts : Artifacts :=
  { scaler := stubScaler, le_gender := floatGenderEncoder,
    le_smoker := floatYesNoEncoder, le_diabetic := floatYesNoEncoder,
    model := stubPredictor }

/-- The frame `preprocess floatCodeArtifacts witnessRecord` produces: the
float codes 0.5 and 1.5 are truncated to the integers 0 and 1. -/
def floatCodeDf : Row :=
  { age := 40, bmi := 30, children := 2, bloodpressure := 130,
    gender := .num 0, diabetic := .num 1, smoker := .num 1 }

/-- A predictor that rejects every vector, for exercising the
`except` branch. -/
def failingPredictor : Predictor :=
  { predict := fun _ => .error "bad input shape" }

/-- Stub artifacts whose predictor always raises. -/
def failArtifacts : Artifacts :=
  { stubArtifacts with model := failingPredictor }

/-- A predictor returning a two-element prediction sequence, for exercising
that only element 0 is displayed. -/
def multiPredictor : Predictor :=
  { predict := fun _ => .ok [500, 999] }

/-- Stub artifacts whose predictor returns two predictions. -/
def multiArtifacts : Artifacts :=
  { stubArtifacts with model := multiPredictor }

/-- A record whose gender label is unknown to the stub gender encoder. -/
def unknownRecord : Record :=
  { age := 30, bmi := 25, children := 0, bloodpressure := 120,
    gender := "unknown", diabetic := "No", smoker := "No" }

/-! ### An order-permuted construction, modelled from the spec

Spec §4.2 step 2: the three categorical fields are encoded "independently —
order among themselves does not matter", and §8 asks that "permuting the
internal construction order of the vector (while preserving final
named-column order) produces identical output".  The following definitions
follow these words: the same pipeline with the three encoding assignments
performed in an arbitrary order, and the input frame assembled with its
fields listed in a different order. -/

/-- The three categorical fields. -/
inductive CatField where
  | gender
  | diabetic
  | smoker
deriving DecidableEq

/-- Modelled from the spec: one categorical encoding assignment as an
independent step keyed by field. -/
def encodeFieldStep (arts : Artifacts) (df : Row) : CatField → Except PipelineError Row
  | .gender => do
    let g ← encodeCell arts.le_gender "gender" df.gender
    return { df with gender := Cell.num g }
  | .diabetic => do
    let d ← encodeCell arts.le_diabetic "diabetic" df.diabetic
    return { df with diabetic := Cell.num d }
  | .smoker => do
    let s ← encodeCell arts.le_smoker "smoker" df.smoker
    return { df with smoker := Cell.num s }

/-- Modelled from the spec: the encoding phase with its three assignments
performed in the given order. -/
def encodePhaseOrd (arts : Artifacts) (r : Record) (order : List CatField) :
    Except PipelineError Row :=
  order.foldlM (encodeFieldStep arts) (mkInputDf r)

/-- Modelled from the spec: preprocessing with a permuted encoding order. -/
def preprocessOrd (arts : Artifacts) (r : Record) (order : List CatField) :
    Except PipelineError Row := do
  let df3 ← encodePhaseOrd arts r order
  let df4 ← scaleStep arts.scaler df3
  astypeStep df4

/-- Modelled from the spec: the submitted branch with a permuted encoding
order but the same final named-column order. -/
def main_submittedOrd (arts : Artifacts) (r : Record) (order : List CatField) :
    Except PipelineError Outcome := do
  let df ← preprocessOrd arts r order
  match df.selectCols model_cols with
  | some final_input => return predictStep arts.model final_input
  | none => .error .keyError

/-- Modelled from the spec: the input frame assembled with its fields listed
in a different order. -/
def mkInputDfAlt (r : Record) : Row :=
  { smoker := .str r.smoker, diabetic := .str r.diabetic, gender := .str r.gender,
    bloodpressure := r.bloodpressure, children := r.children, bmi := r.bmi,
    age := r.age }

/-! ### Basic lemmas about the embedding -/

/-- Bind on `Except` after a success. -/
lemma exceptBind_ok {ε α β : Type} (a : α) (k : α → Except ε β) :
    (Except.ok a : Except ε α) >>= k = k a := rfl

/-- Bind on `Except` after a failure propagates the failure. -/
lemma exceptBind_error {ε α β : Type} (e : ε) (k : α → Except ε β) :
    (Except.error e : Except ε α) >>= k = Except.error e := rfl

/-- `pure` on `Except` is `ok`. -/
lemma exceptPure {ε α : Type} (a : α) : (pure a : Except ε α) = Except.ok a := rfl

/-- Inversion of a successful `Except` bind. -/
lemma bind_ok_elim {ε α β : Type} {x : Except ε α} {k : α → Except ε β} {b : β}
    (h : x >>= k = .ok b) : ∃ a, x = .ok a ∧ k a = .ok b := by
  cases x with
  | ok a => exact ⟨a, rfl, h⟩
  | error e => exact Except.noConfusion h

/-- Inversion of a successful `scaleStep`: the scaler output is written back to
age, bmi and bloodpressure, and the other four columns are untouched. -/
lemma scaleStep_ok_elim {sc : Scaler} {df df' : Row} (h : scaleStep sc df = .ok df') :
    sc.transform [df.age, df.bmi, df.bloodpressure] = [df'.age, df'.bmi, df'.bloodpressure] ∧
    df'.children = df.children ∧ df'.gender = df.gender ∧
    df'.diabetic = df.diabetic ∧ df'.smoker = df.smoker := by
  unfold scaleStep at h
  split at h
  · rename_i a b c heq
    injection h with h
    subst h
    exact ⟨heq, rfl, rfl, rfl, rfl⟩
  · exact Except.noConfusion h

/-- A failing `scaleStep` only ever reports a shape mismatch. -/
lemma scaleStep_error_elim {sc : Scaler} {df : Row} {e : PipelineError}
    (h : scaleStep sc df = .error e) : e = .scalerShape := by
  unfold scaleStep at h
  split at h
  · exact Except.noConfusion h
  · injection h with h
    exact h.symm

/-- Inversion of a successful `encodePhase`: all three labels were known, and
the frame carries their codes with the numeric columns untouched. -/
lemma encodePhase_ok_elim {arts : Artifacts} {r : Record} {df3 : Row}
    (h : encodePhase arts r = .ok df3) :
    ∃ qg qd qs : ℚ,
      arts.le_gender.transform r.gender = some qg ∧
      arts.le_diabetic.transform r.diabetic = some qd ∧
      arts.le_smoker.transform r.smoker = some qs ∧
      df3 = { age := r.age, bmi := r.bmi, children := r.children,
              bloodpressure := r.bloodpressure, gender := .num qg,
              diabetic := .num qd, smoker := .num qs } := by
  unfold encodePhase mkInputDf encodeCell at h
  cases hg : arts.le_gender.transform r.gender with
  | none => simp [hg, exceptBind_error] at h
  | some qg =>
    simp only [hg, exceptBind_ok] at h
    cases hd : arts.le_diabetic.transform r.diabetic with
    | none => simp [hd, exceptBind_error] at h
    | some qd =>
      simp only [hd, exceptBind_ok] at h
      cases hs : arts.le_smoker.transform r.smoker with
      | none => simp [hs, exceptBind_error] at h
      | some qs =>
        simp only [hs, exceptBind_ok, exceptPure] at h
        injection h with h
        exact ⟨qg, qd, qs, rfl, rfl, rfl, h.symm⟩

/-- Inversion of a successful `astypeStep`: the three categorical cells were
numeric and are truncated to integers; nothing else changes. -/
lemma astypeStep_ok_elim {df4 df : Row} (h : astypeStep df4 = .ok df) :
    ∃ qg qd qs : ℚ,
      df4.gender = .num qg ∧ df4.diabetic = .num qd ∧ df4.smoker = .num qs ∧
      df = { df4 with gender := .num ((truncInt qg : ℤ) : ℚ),
                      diabetic := .num ((truncInt qd : ℤ) : ℚ),
                      smoker := .num ((truncInt qs : ℤ) : ℚ) } := by
  unfold astypeStep Cell.astype_int at h
  cases hcg : df4.gender with
  | str s => rw [hcg] at h; exact Except.noConfusion h
  | num qg =>
    rw [hcg] at h
    cases hcd : df4.diabetic with
    | str s => rw [hcd] at h; exact Except.noConfusion h
    | num qd =>
      rw [hcd] at h
      cases hcs : df4.smoker with
      | str s => rw [hcs] at h; exact Except.noConfusion h
      | num qs =>
        rw [hcs] at h
        injection h with h
        exact ⟨qg, qd, qs, rfl, rfl, rfl, h.symm⟩

/-- Selecting `model_cols` from any frame produces exactly the cells of the
named columns, in that order. -/
lemma selectCols_model_cols (df : Row) :
    df.selectCols model_cols =
      some [.num df.age, df.gender, .num df.bmi, .num df.bloodpressure,
            df.diabetic, .num df.children, df.smoker] := rfl

/-- `astypeStep` succeeds on a frame whose categorical cells are numeric,
truncating each of them. -/
lemma astypeStep_num {df4 : Row} {qg qd qs : ℚ}
    (h1 : df4.gender = .num qg) (h2 : df4.diabetic = .num qd)
    (h3 : df4.smoker = .num qs) :
    astypeStep df4 =
      .ok { df4 with gender := .num ((truncInt qg : ℤ) : ℚ),
                     diabetic := .num ((truncInt qd : ℤ) : ℚ),
                     smoker := .num ((truncInt qs : ℤ) : ℚ) } := by
  unfold astypeStep Cell.astype_int
  rw [h1, h2, h3]
  rfl

/-- `main_submitted` is preprocessing followed by `predictStep` on the
`model_cols`-ordered vector. -/
lemma main_submitted_eq_predictStep {arts : Artifacts} {r : Record} {df : Row}
    (h : preprocess arts r = .ok df) :
    main_submitted arts r =
      .ok (predictStep arts.model
        [.num df.age, df.gender, .num df.bmi, .num df.bloodpressure,
         df.diabetic, .num df.children, df.smoker]) := by
  unfold main_submitted
  rw [h, exceptBind_ok, selectCols_model_cols]
  rfl

/-! ### The claims -/

/-- C1: for every valid Record, the feature vector assembled by the inference
pipeline and handed to the predictor has exactly the column order
[age, gender, bmi, bloodpressure, diabetic, children, smoker]. -/
theorem C1_column_order (arts : Artifacts) (r : Record) (df : Row)
    (h : preprocess arts r = .ok df) :
    main_submitted arts r =
      .ok (predictStep arts.model
        [.num df.age, df.gender, .num df.bmi, .num df.bloodpressure,
         df.diabetic, .num df.children, df.smoker]) :=
  main_submitted_eq_predictStep h

/-- Witness for C1 at the stub artifacts and the example record. -/
theorem C1_column_order_witness :
    preprocess stubArtifacts exampleRecord = .ok exampleDf ∧
    main_submitted stubArtifacts exampleRecord =
      .ok (predictStep stubArtifacts.model
        [.num exampleDf.age, exampleDf.gender, .num exampleDf.bmi,
         .num exampleDf.bloodpressure, exampleDf.diabetic,
         .num exampleDf.children, exampleDf.smoker]) :=
  ⟨by decide, C1_column_order stubArtifacts exampleRecord exampleDf (by decide)⟩

/-- C2: for every valid Record, the scaler's transform is applied to exactly
the columns (age, bmi, bloodpressure) in that order, and children and the
already-encoded gender, diabetic and smoker columns are left unchanged by the
scaling step. -/
theorem C2_scaling_frame (arts : Artifacts) (r : Record) (df3 df4 : Row)
    (_henc : encodePhase arts r = .ok df3)
    (hsc : scaleStep arts.scaler df3 = .ok df4) :
    arts.scaler.transform [df3.age, df3.bmi, df3.bloodpressure]
        = [df4.age, df4.bmi, df4.bloodpressure] ∧
    df4.children = df3.children ∧ df4.gender = df3.gender ∧
    df4.diabetic = df3.diabetic ∧ df4.smoker = df3.smoker :=
  scaleStep_ok_elim hsc

/-- Witness for C2 at the stub artifacts and the example record. -/
theorem C2_scaling_frame_witness :
    encodePhase stubArtifacts exampleRecord = .ok exampleDf ∧
    scaleStep stubArtifacts.scaler exampleDf = .ok exampleDf ∧
    (stubArtifacts.scaler.transform [exampleDf.age, exampleDf.bmi, exampleDf.bloodpressure]
        = [exampleDf.age, exampleDf.bmi, exampleDf.bloodpressure] ∧
     exampleDf.children = exampleDf.children ∧ exampleDf.gender = exampleDf.gender ∧
     exampleDf.diabetic = exampleDf.diabetic ∧ exampleDf.smoker = exampleDf.smoker) :=
  ⟨by decide, by decide,
   C2_scaling_frame stubArtifacts exampleRecord exampleDf exampleDf (by decide) (by decide)⟩

/-- C3: with stub artifacts (male → 1, No → 0, identity scaler), the example
record {age=30, bmi=25.0, children=0, bloodpressure=120, gender=male,
diabetic=No, smoker=No} is assembled into the vector [30, 1, 25.0, 120, 0, 0,
0], and the pipeline returns the stub predictor's output for exactly that
vector (the stub rejects any other vector). -/
theorem C3_example_scenario :
    (preprocess stubArtifacts exampleRecord).map (fun df => df.selectCols model_cols)
        = .ok (some referenceVec) ∧
    stubPredictor.predict referenceVec = .ok [9157] ∧
    main_submitted stubArtifacts exampleRecord = .ok (.premium 9157) := by
  refine ⟨by decide, by decide, by decide⟩

/-- C5: loading fails whenever any one of the five artifact files is missing
or corrupted, and then no (partial) artifact tuple is returned. -/
theorem C5_load_all_or_nothing (fs : ArtifactFiles)
    (h : (∃ e, fs.scaler_file = .error e) ∨ (∃ e, fs.gender_file = .error e) ∨
         (∃ e, fs.smoker_file = .error e) ∨ (∃ e, fs.diabetic_file = .error e) ∨
         (∃ e, fs.model_file = .error e)) :
    ∃ e, load_artifacts fs = .error e ∧ ∀ a, load_artifacts fs ≠ .ok a := by
  have hfail : ∃ e, load_artifacts fs = .error e := by
    cases h1 : fs.scaler_file with
    | error e => exact ⟨e, by simp [load_artifacts, h1, exceptBind_error]⟩
    | ok scaler =>
      cases h2 : fs.gender_file with
      | error e =>
        exact ⟨e, by simp [load_artifacts, h1, h2, exceptBind_ok, exceptBind_error]⟩
      | ok le_gender =>
        cases h3 : fs.smoker_file with
        | error e =>
          exact ⟨e, by simp [load_artifacts, h1, h2, h3, exceptBind_ok, exceptBind_error]⟩
        | ok le_smoker =>
          cases h4 : fs.diabetic_file with
          | error e =>
            exact ⟨e, by simp [load_artifacts, h1, h2, h3, h4, exceptBind_ok, exceptBind_error]⟩
          | ok le_diabetic =>
            cases h5 : fs.model_file with
            | error e =>
              exact ⟨e, by
                simp [load_artifacts, h1, h2, h3, h4, h5, exceptBind_ok, exceptBind_error]⟩
            | ok model =>
              exfalso
              rcases h with ⟨e, he⟩ | ⟨e, he⟩ | ⟨e, he⟩ | ⟨e, he⟩ | ⟨e, he⟩ <;>
                simp_all
  obtain ⟨e, he⟩ := hfail
  exact ⟨e, he, fun a ha => by rw [he] at ha; exact Except.noConfusion ha⟩

/-- Witness for C5: one missing artifact file causes the whole load to fail. -/
theorem C5_load_all_or_nothing_witness :
    ((∃ e, missingScalerFiles.scaler_file = .error e) ∨
     (∃ e, missingScalerFiles.gender_file = .error e) ∨
     (∃ e, missingScalerFiles.smoker_file = .error e) ∨
     (∃ e, missingScalerFiles.diabetic_file = .error e) ∨
     (∃ e, missingScalerFiles.model_file = .error e)) ∧
    (∃ e, load_artifacts missingScalerFiles = .error e ∧
          ∀ a, load_artifacts missingScalerFiles ≠ .ok a) :=
  ⟨Or.inl ⟨.fileNotFound "scaler.joblib", rfl⟩,
   C5_load_all_or_nothing missingScalerFiles
     (Or.inl ⟨.fileNotFound "scaler.joblib", rfl⟩)⟩

/-- C6: for every valid Record, each encoded categorical value is coerced to
integer type (truncation, `astype(int)`) after encoding and scaling and before
the predictor is invoked, even if the encoder emitted a float code. -/
theorem C6_categorical_int_coercion (arts : Artifacts) (r : Record) (df : Row)
    (h : preprocess arts r = .ok df) :
    ∃ qg qd qs : ℚ,
      arts.le_gender.transform r.gender = some qg ∧
      arts.le_diabetic.transform r.diabetic = some qd ∧
      arts.le_smoker.transform r.smoker = some qs ∧
      df.gender = .num ((truncInt qg : ℤ) : ℚ) ∧
      df.diabetic = .num ((truncInt qd : ℤ) : ℚ) ∧
      df.smoker = .num ((truncInt qs : ℤ) : ℚ) := by
  unfold preprocess at h
  obtain ⟨df3, h3, h'⟩ := bind_ok_elim h
  obtain ⟨df4, h4, h5⟩ := bind_ok_elim h'
  obtain ⟨qg, qd, qs, hg, hd, hs, hdf3⟩ := encodePhase_ok_elim h3
  obtain ⟨-, -, hcg, hcd, hcs⟩ := scaleStep_ok_elim h4
  obtain ⟨qg', qd', qs', hcg', hcd', hcs', hdf⟩ := astypeStep_ok_elim h5
  have hg4 : df4.gender = Cell.num qg := by rw [hcg, hdf3]
  have hd4 : df4.diabetic = Cell.num qd := by rw [hcd, hdf3]
  have hs4 : df4.smoker = Cell.num qs := by rw [hcs, hdf3]
  rw [hg4] at hcg'
  rw [hd4] at hcd'
  rw [hs4] at hcs'
  injection hcg' with hq1
  injection hcd' with hq2
  injection hcs' with hq3
  subst hq1
  subst hq2
  subst hq3
  exact ⟨qg, qd, qs, hg, hd, hs, by rw [hdf], by rw [hdf], by rw [hdf]⟩

/-- Witness for C6: on a stub run with a float-emitting encoder the final
categorical cells are integer truncations of the emitted codes. -/
theorem C6_categorical_int_coercion_witness :
    preprocess floatCodeArtifacts witnessRecord = .ok floatCodeDf ∧
    ∃ qg qd qs : ℚ,
      floatCodeArtifacts.le_gender.transform witnessRecord.gender = some qg ∧
      floatCodeArtifacts.le_diabetic.transform witnessRecord.diabetic = some qd ∧
      floatCodeArtifacts.le_smoker.transform witnessRecord.smoker = some qs ∧
      floatCodeDf.gender = .num ((truncInt qg : ℤ) : ℚ) ∧
      floatCodeDf.diabetic = .num ((truncInt qd : ℤ) : ℚ) ∧
      floatCodeDf.smoker = .num ((truncInt qs : ℤ) : ℚ) :=
  ⟨by decide,
   C6_categorical_int_coercion floatCodeArtifacts witnessRecord floatCodeDf (by decide)⟩

/-- C4: for every categorical field and every submitted value not in the
corresponding encoder's class list, the pipeline raises an unknown-category
error and never produces an outcome that silently used a default code. -/
theorem C4_unknown_category_raises (arts : Artifacts) (r : Record)
    (h : r.gender ∉ arts.le_gender.classes_ ∨ r.diabetic ∉ arts.le_diabetic.classes_ ∨
         r.smoker ∉ arts.le_smoker.classes_) :
    ∃ f v, main_submitted arts r = .error (.unknownCategory f v) := by
  have henc : ∃ f v, encodePhase arts r = .error (.unknownCategory f v) := by
    by_cases hg : r.gender ∈ arts.le_gender.classes_
    · by_cases hd : r.diabetic ∈ arts.le_diabetic.classes_
      · have hs : r.smoker ∉ arts.le_smoker.classes_ := by
          rcases h with h | h | h
          · exact absurd hg h
          · exact absurd hd h
          · exact h
        exact ⟨"smoker", .str r.smoker, by
          simp [encodePhase, mkInputDf, encodeCell, LabelEncoder.transform,
            hg, hd, hs, exceptBind_ok, exceptBind_error]⟩
      · exact ⟨"diabetic", .str r.diabetic, by
          simp [encodePhase, mkInputDf, encodeCell, LabelEncoder.transform,
            hg, hd, exceptBind_ok, exceptBind_error]⟩
    · exact ⟨"gender", .str r.gender, by
        simp [encodePhase, mkInputDf, encodeCell, LabelEncoder.transform,
          hg, exceptBind_ok, exceptBind_error]⟩
  obtain ⟨f, v, he⟩ := henc
  refine ⟨f, v, ?_⟩
  unfold main_submitted preprocess
  rw [he, exceptBind_error, exceptBind_error]

/-- Witness for C4: the stub encoders reject the label "unknown". -/
theorem C4_unknown_category_raises_witness :
    (unknownRecord.gender ∉ stubArtifacts.le_gender.classes_ ∨
     unknownRecord.diabetic ∉ stubArtifacts.le_diabetic.classes_ ∨
     unknownRecord.smoker ∉ stubArtifacts.le_smoker.classes_) ∧
    (∃ f v, main_submitted stubArtifacts unknownRecord = .error (.unknownCategory f v)) :=
  ⟨Or.inl (by decide),
   C4_unknown_category_raises stubArtifacts unknownRecord (Or.inl (by decide))⟩

/-- C7: for every valid Record the pipeline result is invariant under the
order of the three categorical encoding steps and under the order in which
the record's fields are initially assembled, as long as the final
named-column order is kept: the permuted construction yields the same frame
and the same outcome. -/
theorem C7_construction_order_invariance (arts : Artifacts) (r : Record)
    (f1 f2 f3 : CatField) (h12 : f1 ≠ f2) (h13 : f1 ≠ f3) (h23 : f2 ≠ f3)
    (hg : r.gender ∈ arts.le_gender.classes_)
    (hd : r.diabetic ∈ arts.le_diabetic.classes_)
    (hs : r.smoker ∈ arts.le_smoker.classes_) :
    mkInputDfAlt r = mkInputDf r ∧
    preprocessOrd arts r [f1, f2, f3] = preprocess arts r ∧
    main_submittedOrd arts r [f1, f2, f3] = main_submitted arts r := by
  have henc : encodePhaseOrd arts r [f1, f2, f3] = encodePhase arts r := by
    cases f1 <;> cases f2 <;> cases f3 <;>
      simp_all [encodePhaseOrd, encodeFieldStep, encodePhase, mkInputDf, encodeCell,
        LabelEncoder.transform, List.foldlM, exceptBind_ok, exceptPure]
  have hpre : preprocessOrd arts r [f1, f2, f3] = preprocess arts r := by
    unfold preprocessOrd preprocess
    rw [henc]
  refine ⟨rfl, hpre, ?_⟩
  unfold main_submittedOrd main_submitted
  rw [hpre]

/-- Witness for C7 at a concrete permutation (smoker, gender, diabetic). -/
theorem C7_construction_order_invariance_witness :
    (CatField.smoker ≠ CatField.gender ∧ CatField.smoker ≠ CatField.diabetic ∧
     CatField.gender ≠ CatField.diabetic ∧
     exampleRecord.gender ∈ stubArtifacts.le_gender.classes_ ∧
     exampleRecord.diabetic ∈ stubArtifacts.le_diabetic.classes_ ∧
     exampleRecord.smoker ∈ stubArtifacts.le_smoker.classes_) ∧
    (mkInputDfAlt exampleRecord = mkInputDf exampleRecord ∧
     preprocessOrd stubArtifacts exampleRecord [.smoker, .gender, .diabetic]
        = preprocess stubArtifacts exampleRecord ∧
     main_submittedOrd stubArtifacts exampleRecord [.smoker, .gender, .diabetic]
        = main_submitted stubArtifacts exampleRecord) :=
  ⟨⟨by decide, by decide, by decide, by decide, by decide, by decide⟩,
   C7_construction_order_invariance stubArtifacts exampleRecord
     .smoker .gender .diabetic (by decide) (by decide) (by decide)
     (by decide) (by decide) (by decide)⟩

/-- C8: if the predictor rejects the assembled vector, the pipeline produces
the surfaced prediction-error message, the request is aborted with no
retry, and no premium is produced. -/
theorem C8_prediction_error_surfaced (arts : Artifacts) (r : Record) (df : Row)
    (e : String) (h : preprocess arts r = .ok df)
    (hp : arts.model.predict
        [.num df.age, df.gender, .num df.bmi, .num df.bloodpressure,
         df.diabetic, .num df.children, df.smoker] = .error e) :
    main_submitted arts r = .ok (.predictionError ("Prediction Error: " ++ e)) ∧
    ∀ p : ℚ, main_submitted arts r ≠ .ok (.premium p) := by
  have hm := main_submitted_eq_predictStep h
  unfold predictStep at hm
  rw [hp] at hm
  refine ⟨hm, fun p hc => ?_⟩
  rw [hm] at hc
  exact Outcome.noConfusion (Except.ok.inj hc)

/-- Witness for C8: a predictor that raises yields the error outcome. -/
theorem C8_prediction_error_surfaced_witness :
    preprocess failArtifacts exampleRecord = .ok exampleDf ∧
    failArtifacts.model.predict
        [.num exampleDf.age, exampleDf.gender, .num exampleDf.bmi,
         .num exampleDf.bloodpressure, exampleDf.diabetic,
         .num exampleDf.children, exampleDf.smoker] = .error "bad input shape" ∧
    (main_submitted failArtifacts exampleRecord =
        .ok (.predictionError ("Prediction Error: " ++ "bad input shape")) ∧
     ∀ p : ℚ, main_submitted failArtifacts exampleRecord ≠ .ok (.premium p)) :=
  ⟨by decide, by decide,
   C8_prediction_error_surfaced failArtifacts exampleRecord exampleDf
     "bad input shape" (by decide) (by decide)⟩

/-- C9: when the three categorical values come from the form's choice lists,
which are exactly the encoders' class lists, the unknown-category error
branch is unreachable. -/
theorem C9_form_input_no_unknown_category (arts : Artifacts) (r : Record)
    (hg : r.gender ∈ arts.le_gender.classes_)
    (hd : r.diabetic ∈ arts.le_diabetic.classes_)
    (hs : r.smoker ∈ arts.le_smoker.classes_) :
    ∀ f v, main_submitted arts r ≠ .error (.unknownCategory f v) := by
  intro f v hcontra
  have henc : encodePhase arts r =
      .ok { age := r.age, bmi := r.bmi, children := r.children,
            bloodpressure := r.bloodpressure,
            gender := .num (arts.le_gender.code r.gender),
            diabetic := .num (arts.le_diabetic.code r.diabetic),
            smoker := .num (arts.le_smoker.code r.smoker) } := by
    simp [encodePhase, mkInputDf, encodeCell, LabelEncoder.transform,
      hg, hd, hs, exceptBind_ok, exceptPure]
  cases hsc : scaleStep arts.scaler
      { age := r.age, bmi := r.bmi, children := r.children,
        bloodpressure := r.bloodpressure,
        gender := .num (arts.le_gender.code r.gender),
        diabetic := .num (arts.le_diabetic.code r.diabetic),
        smoker := .num (arts.le_smoker.code r.smoker) } with
  | error e =>
    have hsh := scaleStep_error_elim hsc
    subst hsh
    unfold main_submitted preprocess at hcontra
    rw [henc, exceptBind_ok, hsc, exceptBind_error, exceptBind_error] at hcontra
    exact PipelineError.noConfusion (Except.error.inj hcontra)
  | ok df4 =>
    obtain ⟨-, -, hcg, hcd, hcs'⟩ := scaleStep_ok_elim hsc
    have hg4 : df4.gender = Cell.num (arts.le_gender.code r.gender) := by rw [hcg]
    have hd4 : df4.diabetic = Cell.num (arts.le_diabetic.code r.diabetic) := by rw [hcd]
    have hs4 : df4.smoker = Cell.num (arts.le_smoker.code r.smoker) := by rw [hcs']
    have hast := astypeStep_num hg4 hd4 hs4
    have hpre : preprocess arts r = .ok
        { df4 with
          gender := .num ((truncInt (arts.le_gender.code r.gender) : ℤ) : ℚ),
          diabetic := .num ((truncInt (arts.le_diabetic.code r.diabetic) : ℤ) : ℚ),
          smoker := .num ((truncInt (arts.le_smoker.code r.smoker) : ℤ) : ℚ) } := by
      unfold preprocess
      rw [henc, exceptBind_ok, hsc, exceptBind_ok, hast]
    have hm := main_submitted_eq_predictStep hpre
    rw [hm] at hcontra
    exact Except.noConfusion hcontra

/-- Witness for C9: the example record's labels all come from the stub
encoders' class lists, and the run does not end in an unknown-category
error. -/
theorem C9_form_input_no_unknown_category_witness :
    (exampleRecord.gender ∈ stubArtifacts.le_gender.classes_ ∧
     exampleRecord.diabetic ∈ stubArtifacts.le_diabetic.classes_ ∧
     exampleRecord.smoker ∈ stubArtifacts.le_smoker.classes_) ∧
    ∀ f v, main_submitted stubArtifacts exampleRecord ≠ .error (.unknownCategory f v) :=
  ⟨⟨by decide, by decide, by decide⟩,
   C9_form_input_no_unknown_category stubArtifacts exampleRecord
     (by decide) (by decide) (by decide)⟩

/-- C10: the displayed premium is element 0 of the sequence returned by the
predictor on the assembled single-row matrix; later elements are ignored,
and an empty sequence is an error, not a premium. -/
theorem C10_premium_is_first_element (arts : Artifacts) (r : Record) (df : Row)
    (p : ℚ) (rest : List ℚ) (h : preprocess arts r = .ok df) :
    (arts.model.predict
        [.num df.age, df.gender, .num df.bmi, .num df.bloodpressure,
         df.diabetic, .num df.children, df.smoker] = .ok (p :: rest) →
      main_submitted arts r = .ok (.premium p)) ∧
    (arts.model.predict
        [.num df.age, df.gender, .num df.bmi, .num df.bloodpressure,
         df.diabetic, .num df.children, df.smoker] = .ok [] →
      main_submitted arts r =
        .ok (.predictionError ("Prediction Error: " ++ indexErrorMsg))) := by
  have hm := main_submitted_eq_predictStep h
  unfold predictStep at hm
  constructor
  · intro hp
    rw [hp] at hm
    exact hm
  · intro hp
    rw [hp] at hm
    exact hm

/-- Witness for C10: with a two-element prediction sequence the premium is
the first element and the second is ignored. -/
theorem C10_premium_is_first_element_witness :
    preprocess multiArtifacts exampleRecord = .ok exampleDf ∧
    ((multiArtifacts.model.predict
        [.num exampleDf.age, exampleDf.gender, .num exampleDf.bmi,
         .num exampleDf.bloodpressure, exampleDf.diabetic,
         .num exampleDf.children, exampleDf.smoker] = .ok ((500 : ℚ) :: [999]) →
       main_submitted multiArtifacts exampleRecord = .ok (.premium 500)) ∧
     (multiArtifacts.model.predict
        [.num exampleDf.age, exampleDf.gender, .num exampleDf.bmi,
         .num exampleDf.bloodpressure, exampleDf.diabetic,
         .num exampleDf.children, exampleDf.smoker] = .ok [] →
       main_submitted multiArtifacts exampleRecord =
         .ok (.predictionError ("Prediction Error: " ++ indexErrorMsg)))) :=
  ⟨by decide,
   C10_premium_is_first_element multiArtifacts exampleRecord exampleDf
     500 [999] (by decide)⟩

end HealthApp
